import Mathlib

/-!
Verification development for the GIIA platform Python client
(docs/api/examples/python_client.py).

The client is embedded shallowly:
* JSON values are the inductive `GIIA.Json`; Python dictionary access
  `d[k]` and `d.get(k, default)` become `Json.pyGet` / `Json.pyGetD`,
  which fail the way CPython does (`KeyError` on a missing key,
  attribute/type errors when the receiver is not a dict).
* The mutable instance attributes (`access_token`, `org_id`, `user`)
  become the record `ClientState`; methods that assign them are state
  transformers.
* Each HTTP call is split in two: a `*_request` function computing the
  request the method sends (URL, headers, query params, JSON body) and a
  response-processing function taking the call outcome.  The outcome is
  `Option HttpResponse`: `none` models a network-level failure (the
  underlying library raising a ConnectionError), `some r` a completed
  HTTP exchange with status `r.status` and decoded JSON body `r.body`.
* `response.raise_for_status()` raises exactly for statuses in [400,600).
-/

namespace GIIA

/-- JSON values as decoded by `response.json()`; numbers are modelled as
integers since the client never computes with them. -/
inductive Json where
  | null
  | bool (b : Bool)
  | num (n : Int)
  | str (s : String)
  | arr (elems : List Json)
  | obj (fields : List (String × Json))

/-- Python exceptions the client code can raise. `httpError` and
`connectionError` are the `requests.exceptions.RequestException`
subclasses; the others are lookup failures on decoded JSON. -/
inductive PyErr where
  | httpError (status : Nat)
  | connectionError
  | keyError (key : String)
  | attrError (key : String)
  | typeError (key : String)
  | valueError (key : String)
deriving DecidableEq, Repr

/-- Which exceptions are `requests.exceptions.RequestException` (the only
class the example driver catches). -/
def PyErr.isRequestException : PyErr → Bool
  | .httpError _ => true
  | .connectionError => true
  | _ => false

/-- Pure lookup of a key in a JSON object (first binding wins, as in a
Python dict with distinct keys); `none` when the key is missing or the
value is not an object. -/
def Json.find? (j : Json) (k : String) : Option Json :=
  match j with
  | .obj fs => fs.lookup k
  | _ => none

/-- Python `d[k]`: `KeyError` on a missing key, `TypeError` when `d` is
not a dict. -/
def Json.pyGet (j : Json) (k : String) : Except PyErr Json :=
  match j with
  | .obj fs =>
    match fs.lookup k with
    | some v => .ok v
    | none => .error (.keyError k)
  | _ => .error (.typeError k)

/-- Python `d.get(k, default)`: the default on a missing key,
`AttributeError` when `d` is not a dict. -/
def Json.pyGetD (j : Json) (k : String) (d : Json) : Except PyErr Json :=
  match j with
  | .obj fs => .ok ((fs.lookup k).getD d)
  | _ => .error (.attrError k)

/-- Python truthiness of a JSON value (`if x:`). -/
def pyTruthy : Json → Bool
  | .null => false
  | .bool b => b
  | .num n => n != 0
  | .str s => s != ""
  | .arr xs => !xs.isEmpty
  | .obj fs => !fs.isEmpty

/-- Truthiness of an `Optional` attribute (`None` is falsy). -/
def truthyOpt : Option Json → Bool
  | none => false
  | some j => pyTruthy j

/-- Python `str()` conversion as used in f-strings.  The container cases
are abbreviated (no client value interpolated into a header or URL is a
container in any scenario considered here). -/
def pyStr : Json → String
  | .null => "None"
  | .bool b => if b then "True" else "False"
  | .num n => toString n
  | .str s => s
  | .arr _ => "[...]"
  | .obj _ => "\x7b...\x7d"

/-- `str.lower()` restricted to ASCII, as applied to "True"/"False". -/
def pyLower (s : String) : String :=
  String.mk (s.data.map Char.toLower)

/-- A completed HTTP exchange: final status code and decoded JSON body. -/
structure HttpResponse where
  status : Nat
  body : Json

/-- Outcome of issuing a request: `none` is a network-level failure. -/
abbrev Outcome := Option HttpResponse

/-- `response.raise_for_status()` raises precisely for 4xx/5xx codes. -/
def isHttpErrorStatus (s : Nat) : Bool :=
  decide (400 ≤ s ∧ s < 600)

/-- The `User` dataclass; fields hold raw JSON values since Python does
not enforce the annotations at runtime. -/
structure User where
  id : Json
  email : Json
  first_name : Json
  last_name : Json
  organization_id : Json
  roles : Json

/-- The `Product` dataclass. -/
structure Product where
  id : Json
  sku : Json
  name : Json
  category : Json
  unit_of_measure : Json
  status : Json

/-- The `Buffer` dataclass. -/
structure Buffer where
  product_id : Json
  zone : Json
  net_flow_position : Json
  buffer_penetration : Json
  red_zone : Json
  yellow_zone : Json
  green_zone : Json

/-- The mutable attributes of a `GIIAClient` instance. -/
structure ClientState where
  base_url : String
  access_token : Option Json
  org_id : Option Json
  user : Option User

/-- `GIIAClient.__init__`. -/
def GIIAClient.init (base_url : String) : ClientState :=
  { base_url := base_url, access_token := none, org_id := none, user := none }

/-- The `_headers` property: `Content-Type` always, `Authorization`
when the stored token is truthy, `X-Organization-ID` when the stored
organization id is truthy. -/
def headersOf (st : ClientState) : List (String × Json) :=
  [("Content-Type", Json.str "application/json")]
    ++ (match st.access_token with
        | some t => if pyTruthy t then [("Authorization", Json.str ("Bearer " ++ pyStr t))] else []
        | none => [])
    ++ (match st.org_id with
        | some o => if pyTruthy o then [("X-Organization-ID", o)] else []
        | none => [])

/-- An HTTP request as assembled by a client method: URL, the custom
headers the method passes, query parameters, and optional JSON body. -/
structure Request where
  url : String
  headers : List (String × Json)
  params : List (String × Json)
  body : Option Json

/-! ### Authentication -/

/-- The request `login` sends (no custom headers are passed). -/
def login_request (st : ClientState) (email password : String) : Request :=
  { url := st.base_url ++ ":8081/api/v1/auth/login"
    headers := []
    params := []
    body := some (.obj [("email", .str email), ("password", .str password)]) }

/-- `GIIAClient.login` applied to the call outcome.  The assignments to
`self.access_token`, `self.org_id` and `self.user` happen in source
order, so a lookup failure leaves exactly the attributes assigned before
it mutated. -/
def login (st : ClientState) (o : Outcome) : Except PyErr User × ClientState :=
  match o with
  | none => (.error .connectionError, st)
  | some r =>
    if isHttpErrorStatus r.status then (.error (.httpError r.status), st)
    else
      match r.body.pyGet "access_token" with
      | .error e => (.error e, st)
      | .ok tok =>
        let st1 := { st with access_token := some tok }
        match r.body.pyGet "user" with
        | .error e => (.error e, st1)
        | .ok u =>
          match u.pyGet "organization_id" with
          | .error e => (.error e, st1)
          | .ok org =>
            let st2 := { st1 with org_id := some org }
            match u.pyGet "id" with
            | .error e => (.error e, st2)
            | .ok uid =>
              match u.pyGet "email" with
              | .error e => (.error e, st2)
              | .ok em =>
                match u.pyGetD "first_name" (.str "") with
                | .error e => (.error e, st2)
                | .ok fn =>
                  match u.pyGetD "last_name" (.str "") with
                  | .error e => (.error e, st2)
                  | .ok ln =>
                    match u.pyGet "organization_id" with
                    | .error e => (.error e, st2)
                    | .ok org2 =>
                      match u.pyGetD "roles" (.arr []) with
                      | .error e => (.error e, st2)
                      | .ok rl =>
                        let usr : User :=
                          { id := uid, email := em, first_name := fn,
                            last_name := ln, organization_id := org2, roles := rl }
                        (.ok usr, { st2 with user := some usr })

/-- The request `refresh_token` sends (no custom headers are passed). -/
def refresh_token_request (st : ClientState) : Request :=
  { url := st.base_url ++ ":8081/api/v1/auth/refresh"
    headers := []
    params := []
    body := none }

/-- `GIIAClient.refresh_token` applied to the call outcome. -/
def refresh_token (st : ClientState) (o : Outcome) : Except PyErr Json × ClientState :=
  match o with
  | none => (.error .connectionError, st)
  | some r =>
    if isHttpErrorStatus r.status then (.error (.httpError r.status), st)
    else
      match r.body.pyGet "access_token" with
      | .error e => (.error e, st)
      | .ok tok => (.ok tok, { st with access_token := some tok })

/-- The request `logout` sends (it passes `self._headers`). -/
def logout_request (st : ClientState) : Request :=
  { url := st.base_url ++ ":8081/api/v1/auth/logout"
    headers := headersOf st
    params := []
    body := none }

/-- `GIIAClient.logout` applied to the call outcome.  No
`raise_for_status` is called, so any completed exchange falls through to
the three clearing assignments; a network-level failure raises out of
`session.post` before any of them run. -/
def logout (st : ClientState) (o : Outcome) : Except PyErr Unit × ClientState :=
  match o with
  | none => (.error .connectionError, st)
  | some _ => (.ok (), { st with access_token := none, org_id := none, user := none })

/-! ### Products (catalog service) -/

/-- The `Product(...)` construction repeated verbatim in `list_products`,
`get_product` and `create_product`: required keys `id`, `sku`, `name`
are subscripted (KeyError when missing), the rest use `.get` with the
documented defaults; arguments are evaluated in source order. -/
def productOfJson (p : Json) : Except PyErr Product :=
  match p.pyGet "id" with
  | .error e => .error e
  | .ok i =>
    match p.pyGet "sku" with
    | .error e => .error e
    | .ok sk =>
      match p.pyGet "name" with
      | .error e => .error e
      | .ok nm =>
        match p.pyGetD "category" (.str "") with
        | .error e => .error e
        | .ok cat =>
          match p.pyGetD "unit_of_measure" (.str "") with
          | .error e => .error e
          | .ok um =>
            match p.pyGetD "status" (.str "active") with
            | .error e => .error e
            | .ok stt =>
              .ok { id := i, sku := sk, name := nm, category := cat,
                    unit_of_measure := um, status := stt }

/-- The list comprehension `[Product(...) for p in products]`: elements
are mapped in order and the first failing element aborts. -/
def mapProducts : List Json → Except PyErr (List Product)
  | [] => .ok []
  | p :: rest =>
    match productOfJson p with
    | .error e => .error e
    | .ok pr =>
      match mapProducts rest with
      | .error e => .error e
      | .ok prs => .ok (pr :: prs)

/-- The request `list_products` sends: the `status` param is added only
when the argument is truthy (`if status:`). -/
def list_products_request (st : ClientState) (page page_size : Int)
    (status : Option String) : Request :=
  { url := st.base_url ++ ":8082/api/v1/products"
    headers := headersOf st
    params :=
      [("page", .num page), ("page_size", .num page_size)]
        ++ (match status with
            | some s => if s = "" then [] else [("status", .str s)]
            | none => [])
    body := none }

/-- `GIIAClient.list_products` applied to the call outcome: maps the
`"products"` array (default `[]`) through the `Product` construction. -/
def list_products (o : Outcome) : Except PyErr (List Product) :=
  match o with
  | none => .error .connectionError
  | some r =>
    if isHttpErrorStatus r.status then .error (.httpError r.status)
    else
      match r.body.pyGetD "products" (.arr []) with
      | .error e => .error e
      | .ok ps =>
        match ps with
        | .arr l => mapProducts l
        | _ => .error (.typeError "products")

/-- The request `get_product` sends. -/
def get_product_request (st : ClientState) (product_id : Json) : Request :=
  { url := st.base_url ++ ":8082/api/v1/products/" ++ pyStr product_id
    headers := headersOf st
    params := []
    body := none }

/-- `GIIAClient.get_product` applied to the call outcome. -/
def get_product (o : Outcome) : Except PyErr Product :=
  match o with
  | none => .error .connectionError
  | some r =>
    if isHttpErrorStatus r.status then .error (.httpError r.status)
    else productOfJson r.body

/-- The request `create_product` sends. -/
def create_product_request (st : ClientState)
    (sku name category unit_of_measure : String) : Request :=
  { url := st.base_url ++ ":8082/api/v1/products"
    headers := headersOf st
    params := []
    body := some (.obj [("sku", .str sku), ("name", .str name),
                        ("category", .str category),
                        ("unit_of_measure", .str unit_of_measure)]) }

/-- `GIIAClient.create_product` applied to the call outcome. -/
def create_product (o : Outcome) : Except PyErr Product :=
  match o with
  | none => .error .connectionError
  | some r =>
    if isHttpErrorStatus r.status then .error (.httpError r.status)
    else productOfJson r.body

/-! ### Buffers (DDMRP engine) -/

/-- The `Buffer(...)` construction shared verbatim by `get_buffer` and
`calculate_buffer`: every field uses `.get` with a default, the
`product_id` default being the method's `product_id` argument. -/
def bufferOfJson (product_id : Json) (b : Json) : Except PyErr Buffer :=
  match b.pyGetD "product_id" product_id with
  | .error e => .error e
  | .ok pid =>
    match b.pyGetD "zone" (.str "unknown") with
    | .error e => .error e
    | .ok z =>
      match b.pyGetD "net_flow_position" (.num 0) with
      | .error e => .error e
      | .ok nfp =>
        match b.pyGetD "buffer_penetration" (.num 0) with
        | .error e => .error e
        | .ok bp =>
          match b.pyGetD "red_zone" (.num 0) with
          | .error e => .error e
          | .ok rz =>
            match b.pyGetD "yellow_zone" (.num 0) with
            | .error e => .error e
            | .ok yz =>
              match b.pyGetD "green_zone" (.num 0) with
              | .error e => .error e
              | .ok gz =>
                .ok { product_id := pid, zone := z, net_flow_position := nfp,
                      buffer_penetration := bp, red_zone := rz,
                      yellow_zone := yz, green_zone := gz }

/-- The request `get_buffer` sends. -/
def get_buffer_request (st : ClientState) (product_id : Json) : Request :=
  { url := st.base_url ++ ":8083/api/v1/buffers/" ++ pyStr product_id
    headers := headersOf st
    params := []
    body := none }

/-- `GIIAClient.get_buffer` applied to the call outcome: reads the
`"buffer"` sub-object (default `{}`) and builds the record. -/
def get_buffer (product_id : Json) (o : Outcome) : Except PyErr Buffer :=
  match o with
  | none => .error .connectionError
  | some r =>
    if isHttpErrorStatus r.status then .error (.httpError r.status)
    else
      match r.body.pyGetD "buffer" (.obj []) with
      | .error e => .error e
      | .ok b => bufferOfJson product_id b

/-- The request `calculate_buffer` sends. -/
def calculate_buffer_request (st : ClientState) (product_id : Json) : Request :=
  { url := st.base_url ++ ":8083/api/v1/buffers/" ++ pyStr product_id ++ "/calculate"
    headers := headersOf st
    params := []
    body := none }

/-- `GIIAClient.calculate_buffer` applied to the call outcome; identical
response handling to `get_buffer`. -/
def calculate_buffer (product_id : Json) (o : Outcome) : Except PyErr Buffer :=
  match o with
  | none => .error .connectionError
  | some r =>
    if isHttpErrorStatus r.status then .error (.httpError r.status)
    else
      match r.body.pyGetD "buffer" (.obj []) with
      | .error e => .error e
      | .ok b => bufferOfJson product_id b

/-! ### Calendar dates

`create_purchase_order` formats `datetime.now()` and
`datetime.now() + timedelta(days=n)` with `strftime("%Y-%m-%d")`.  Dates
are modelled as proleptic Gregorian calendar triples; adding a
`timedelta` of `n` days is the `n`-fold calendar successor, and
`toordinal` mirrors `datetime.toordinal` (days since 0001-01-01,
exclusive), built from CPython's `_days_before_year` and
`_days_before_month` formulas. -/

/-- CPython `_is_leap`. -/
def isLeap (y : Nat) : Bool :=
  (y % 4 == 0 && y % 100 != 0) || y % 400 == 0

/-- Days in month `m` of year `y` (CPython `_days_in_month`). -/
def monthLen (y : Nat) : Nat → Nat
  | 1 => 31
  | 2 => if isLeap y then 29 else 28
  | 3 => 31
  | 4 => 30
  | 5 => 31
  | 6 => 30
  | 7 => 31
  | 8 => 31
  | 9 => 30
  | 10 => 31
  | 11 => 30
  | 12 => 31
  | _ => 0

/-- CPython `_DAYS_BEFORE_MONTH` (non-leap cumulative month lengths). -/
def DAYS_BEFORE_MONTH : Nat → Nat
  | 2 => 31
  | 3 => 59
  | 4 => 90
  | 5 => 120
  | 6 => 151
  | 7 => 181
  | 8 => 212
  | 9 => 243
  | 10 => 273
  | 11 => 304
  | 12 => 334
  | _ => 0

/-- CPython `_days_before_month`. -/
def daysBeforeMonth (y m : Nat) : Nat :=
  DAYS_BEFORE_MONTH m + (if 2 < m && isLeap y then 1 else 0)

/-- CPython `_days_before_year`. -/
def daysBeforeYear (y : Nat) : Nat :=
  365 * (y - 1) + (y - 1) / 4 - (y - 1) / 100 + (y - 1) / 400

/-- A `datetime.date` value (the time-of-day part is irrelevant). -/
structure PyDate where
  year : Nat
  month : Nat
  day : Nat
deriving DecidableEq, Repr

/-- Validity of a calendar triple (what `datetime` guarantees). -/
def PyDate.Valid (d : PyDate) : Prop :=
  1 ≤ d.year ∧ 1 ≤ d.month ∧ d.month ≤ 12 ∧ 1 ≤ d.day ∧ d.day ≤ monthLen d.year d.month

instance (d : PyDate) : Decidable d.Valid := by
  unfold PyDate.Valid; infer_instance

/-- The calendar successor of a date. -/
def nextDay (d : PyDate) : PyDate :=
  if d.day < monthLen d.year d.month then ⟨d.year, d.month, d.day + 1⟩
  else if d.month < 12 then ⟨d.year, d.month + 1, 1⟩
  else ⟨d.year + 1, 1, 1⟩

/-- `date + timedelta(days=n)`: the `n`-fold calendar successor. -/
def addDays : Nat → PyDate → PyDate
  | 0, d => d
  | n + 1, d => addDays n (nextDay d)

/-- `datetime.date.toordinal`: 0001-01-01 is day 1. -/
def toordinal (d : PyDate) : Nat :=
  daysBeforeYear d.year + daysBeforeMonth d.year d.month + d.day

/-- Left-pad the decimal representation of `n` with zeros to width `w`
(`strftime` zero-padding). -/
def zeroPad (w n : Nat) : String :=
  String.mk (List.replicate (w - (toString n).length) '0') ++ toString n

/-- `strftime("%Y-%m-%d")`. -/
def strftimeYMD (d : PyDate) : String :=
  zeroPad 4 d.year ++ "-" ++ zeroPad 2 d.month ++ "-" ++ zeroPad 2 d.day

/-! ### Purchase orders (execution service) -/

/-- The request `create_purchase_order` sends; `now` stands for the
value observed by `datetime.now()` during the call. -/
def create_purchase_order_request (st : ClientState)
    (po_number supplier_id : String) (line_items : List Json)
    (expected_days : Nat) (now : PyDate) : Request :=
  { url := st.base_url ++ ":8084/api/v1/purchase-orders"
    headers := headersOf st
    params := []
    body := some (.obj
      [("po_number", .str po_number),
       ("supplier_id", .str supplier_id),
       ("order_date", .str (strftimeYMD now)),
       ("expected_arrival_date", .str (strftimeYMD (addDays expected_days now))),
       ("line_items", .arr line_items)]) }

/-- `GIIAClient.create_purchase_order` applied to the call outcome:
returns the raw decoded body. -/
def create_purchase_order (o : Outcome) : Except PyErr Json :=
  match o with
  | none => .error .connectionError
  | some r =>
    if isHttpErrorStatus r.status then .error (.httpError r.status)
    else .ok r.body

/-- The request `list_purchase_orders` sends. -/
def list_purchase_orders_request (st : ClientState) (status : Option String) : Request :=
  { url := st.base_url ++ ":8084/api/v1/purchase-orders"
    headers := headersOf st
    params :=
      match status with
      | some s => if s = "" then [] else [("status", .str s)]
      | none => []
    body := none }

/-- `GIIAClient.list_purchase_orders` applied to the call outcome:
returns `response.json().get("data", [])` raw. -/
def list_purchase_orders (o : Outcome) : Except PyErr Json :=
  match o with
  | none => .error .connectionError
  | some r =>
    if isHttpErrorStatus r.status then .error (.httpError r.status)
    else r.body.pyGetD "data" (.arr [])

/-! ### Analytics and notifications -/

/-- The request `get_kpi_snapshot` sends. -/
def get_kpi_snapshot_request (st : ClientState) : Request :=
  { url := st.base_url ++ ":8085/api/v1/analytics/snapshot"
    headers := headersOf st
    params := []
    body := none }

/-- `GIIAClient.get_kpi_snapshot` applied to the call outcome: returns
the raw decoded body. -/
def get_kpi_snapshot (o : Outcome) : Except PyErr Json :=
  match o with
  | none => .error .connectionError
  | some r =>
    if isHttpErrorStatus r.status then .error (.httpError r.status)
    else .ok r.body

/-- The request `get_notifications` sends: the query parameter is
`str(unread_only).lower()`. -/
def get_notifications_request (st : ClientState) (unread_only : Bool) : Request :=
  { url := st.base_url ++ ":8086/api/v1/notifications"
    headers := headersOf st
    params := [("unread_only", .str (pyLower (pyStr (.bool unread_only))))]
    body := none }

/-- `GIIAClient.get_notifications` applied to the call outcome: returns
`response.json().get("notifications", [])` raw. -/
def get_notifications (o : Outcome) : Except PyErr Json :=
  match o with
  | none => .error .connectionError
  | some r =>
    if isHttpErrorStatus r.status then .error (.httpError r.status)
    else r.body.pyGetD "notifications" (.arr [])

/-! ### The example driver (`main`)

`main` runs six labeled steps.  Each step wraps its client call *and its
success-path prints* in `try ... except requests.exceptions.RequestException`;
any other exception propagates and kills the process.  That includes not
only lookup errors raised by the client methods (e.g. a `KeyError` from
a malformed login body) but also exceptions raised by the print
expressions themselves on well-status but ill-typed response data:

* step 4 formats `buffer.net_flow_position` with `:.2f` and
  `buffer.buffer_penetration * 100` with `:.1f` — a float format spec
  raises `ValueError` on a `str` and `TypeError` on `None`/list/dict
  (`bool` and numbers format fine, `bool` being an `int` subclass), and
  `* 100` itself raises `TypeError` on `None`/dict (while `str`/list
  multiply into repetitions that then fail to format);
* step 5 does the same to `kpis.get('service_level', 0) * 100` and
  `kpis.get('stockout_rate', 0) * 100` (with `.get` additionally raising
  `AttributeError` when the decoded body is not a dict);
* step 6 takes `len(notifications)` (`TypeError` on numbers/bool/None),
  slices `notifications[:3]` (`TypeError` on a dict), and calls `.get`
  on each of the first three elements (`AttributeError` on a non-dict
  element; iterating a `str` yields `str` characters, which also lack
  `.get`).

A caught login failure triggers `return`.  The driver's observable
behaviour is summarised by `DriverRes`: which step headers were printed,
whether the closing "Example complete!" banner was reached, and an
uncaught exception if one escaped. -/

/-- Observable result of running `main`. -/
structure DriverRes where
  steps : List Nat
  completed : Bool
  crash : Option PyErr
deriving Repr

/-- Formatting a value with a float format spec (`:.2f` / `:.1f`) inside
an f-string: numbers and `bool` succeed, `str.__format__` raises
`ValueError` for the unknown code, everything else (`None`, list, dict)
raises `TypeError` from `object.__format__`. -/
def pyFormatFloat : Json → Except PyErr Unit
  | .num _ => .ok ()
  | .bool _ => .ok ()
  | .str _ => .error (.valueError "format")
  | _ => .error (.typeError "format")

/-- Python `v * 100`: numbers multiply, `bool` coerces to `int`,
`str`/list repeat, `None`/dict raise `TypeError`. -/
def pyMulInt : Json → Except PyErr Json
  | .num n => .ok (.num (n * 100))
  | .bool b => .ok (.num (if b then 100 else 0))
  | .str s => .ok (.str (String.join (List.replicate 100 s)))
  | .arr xs => .ok (.arr (List.flatten (List.replicate 100 xs)))
  | .null => .error (.typeError "mul")
  | .obj _ => .error (.typeError "mul")

/-- The two formatted prints of step 4:
`f"{buffer.net_flow_position:.2f}"` then
`f"{buffer.buffer_penetration * 100:.1f}"`. -/
def step4Prints (buf : Buffer) : Except PyErr Unit :=
  match pyFormatFloat buf.net_flow_position with
  | .error e => .error e
  | .ok _ =>
    match pyMulInt buf.buffer_penetration with
    | .error e => .error e
    | .ok v => pyFormatFloat v

/-- One KPI print of step 5: `kpis.get(key, 0) * 100` formatted with
`:.1f`. -/
def kpiPrint (kpis : Json) (key : String) : Except PyErr Unit :=
  match kpis.pyGetD key (.num 0) with
  | .error e => .error e
  | .ok v =>
    match pyMulInt v with
    | .error e => .error e
    | .ok w => pyFormatFloat w

/-- The two formatted prints of step 5 (`service_level` then
`stockout_rate`). -/
def step5Prints (kpis : Json) : Except PyErr Unit :=
  match kpiPrint kpis "service_level" with
  | .error e => .error e
  | .ok _ => kpiPrint kpis "stockout_rate"

/-- The loop body of step 6: `n.get('priority', 'info')` /
`n.get('title', 'Untitled')` need each element to be a dict. -/
def notifLoop : List Json → Except PyErr Unit
  | [] => .ok ()
  | n :: rest =>
    match n with
    | .obj _ => notifLoop rest
    | _ => .error (.attrError "get")

/-- The prints of step 6: `len(notifications)`, then the loop over
`notifications[:3]`.  A list works elementwise; a `str` passes `len` and
slicing but its characters lack `.get` (an empty `str` never enters the
loop); a dict passes `len` but `d[:3]` raises `TypeError` (unhashable
slice); numbers, `bool` and `None` fail `len` with `TypeError`. -/
def step6Prints : Json → Except PyErr Unit
  | .arr xs => notifLoop (xs.take 3)
  | .str s => if s = "" then .ok () else .error (.attrError "get")
  | .obj _ => .error (.typeError "slice")
  | _ => .error (.typeError "len")

/-- Step 6 (`get_notifications(unread_only=True)` and its prints). -/
def step6Run (o6 : Outcome) : DriverRes :=
  match get_notifications o6 with
  | .error e =>
    if e.isRequestException then ⟨[6], true, none⟩ else ⟨[6], false, some e⟩
  | .ok v =>
    match step6Prints v with
    | .ok _ => ⟨[6], true, none⟩
    | .error e => ⟨[6], false, some e⟩

/-- Step 5 (`get_kpi_snapshot` and its prints), then step 6. -/
def step5Run (o5 o6 : Outcome) : DriverRes :=
  let next := step6Run o6
  match get_kpi_snapshot o5 with
  | .error e =>
    if e.isRequestException then ⟨5 :: next.steps, next.completed, next.crash⟩
    else ⟨[5], false, some e⟩
  | .ok kpis =>
    match step5Prints kpis with
    | .ok _ => ⟨5 :: next.steps, next.completed, next.crash⟩
    | .error e => ⟨[5], false, some e⟩

/-- Step 4: the header is printed unconditionally, but `get_buffer` and
the buffer prints run only when the product list from step 2 is
non-empty. -/
def step4Run (products : List Product) (o4 o5 o6 : Outcome) : DriverRes :=
  let next := step5Run o5 o6
  match products with
  | [] => ⟨4 :: next.steps, next.completed, next.crash⟩
  | p :: _ =>
    match get_buffer p.id o4 with
    | .error e =>
      if e.isRequestException then ⟨4 :: next.steps, next.completed, next.crash⟩
      else ⟨[4], false, some e⟩
    | .ok buf =>
      match step4Prints buf with
      | .ok _ => ⟨4 :: next.steps, next.completed, next.crash⟩
      | .error e => ⟨[4], false, some e⟩

/-- Step 3 (`create_product`), then steps 4-6. -/
def step3Run (products : List Product) (o3 o4 o5 o6 : Outcome) : DriverRes :=
  let next := step4Run products o4 o5 o6
  match create_product o3 with
  | .error e =>
    if e.isRequestException then ⟨3 :: next.steps, next.completed, next.crash⟩
    else ⟨[3], false, some e⟩
  | .ok _ => ⟨3 :: next.steps, next.completed, next.crash⟩

/-- Step 2 (`list_products(page_size=5)`): on a caught failure the local
`products` binding becomes `[]`, then steps 3-6. -/
def step2Run (o2 o3 o4 o5 o6 : Outcome) : DriverRes :=
  match list_products o2 with
  | .error e =>
    if e.isRequestException then
      let next := step3Run [] o3 o4 o5 o6
      ⟨2 :: next.steps, next.completed, next.crash⟩
    else ⟨[2], false, some e⟩
  | .ok ps =>
    let next := step3Run ps o3 o4 o5 o6
    ⟨2 :: next.steps, next.completed, next.crash⟩

/-- `main`: step 1 is `login`; a caught login failure returns
immediately (normal exit, nothing further runs), an uncaught exception
crashes, success proceeds through steps 2-6.  `oi` is the outcome of the
(at most one) HTTP call step `i` performs. -/
def mainRun (o1 o2 o3 o4 o5 o6 : Outcome) : DriverRes :=
  match login (GIIAClient.init "http://localhost") o1 with
  | (.error e, _) => ⟨[1], false, if e.isRequestException then none else some e⟩
  | (.ok _, _) =>
    let next := step2Run o2 o3 o4 o5 o6
    ⟨1 :: next.steps, next.completed, next.crash⟩

/-- `true` when a step result is either a success or an exception the
driver's `except requests.exceptions.RequestException` arm catches. -/
def transportOnly {α : Type} : Except PyErr α → Bool
  | .error e => e.isRequestException
  | .ok _ => true

/-- `true` when a `get_buffer` result is a caught transport failure or a
success whose step-4 prints raise nothing. -/
def bufferStepClean : Except PyErr Buffer → Bool
  | .error e => e.isRequestException
  | .ok buf =>
    match step4Prints buf with
    | .ok _ => true
    | .error _ => false

/-- `true` when a `get_kpi_snapshot` result is a caught transport
failure or a success whose step-5 prints raise nothing. -/
def kpiStepClean : Except PyErr Json → Bool
  | .error e => e.isRequestException
  | .ok kpis =>
    match step5Prints kpis with
    | .ok _ => true
    | .error _ => false

/-- `true` when a `get_notifications` result is a caught transport
failure or a success whose step-6 prints raise nothing. -/
def notifStepClean : Except PyErr Json → Bool
  | .error e => e.isRequestException
  | .ok v =>
    match step6Prints v with
    | .ok _ => true
    | .error _ => false

/-! ### Support lemmas -/

theorem isHttpErrorStatus_200 : isHttpErrorStatus 200 = false := rfl

theorem isHttpErrorStatus_of (s : Nat) (h1 : 400 ≤ s) (h2 : s < 600) :
    isHttpErrorStatus s = true :=
  decide_eq_true ⟨h1, h2⟩

theorem isHttpErrorStatus_of_lt (s : Nat) (h : s < 400) :
    isHttpErrorStatus s = false := by
  unfold isHttpErrorStatus
  simp only [decide_eq_false_iff_not]
  omega

/-! ### Claim C1 -/

/-- Claim C1 counterexample: with a token, organization id and no user
stored, a network-level failure of the logout request propagates out of
`logout` before the clearing assignments run, so the access token is
*not* cleared — refuting "the clearing is unconditional with respect to
... network-level failure". -/
theorem C1_counterexample :
    (logout { base_url := "http://localhost", access_token := some (.str "tok"),
              org_id := some (.str "org"), user := none } none).2.access_token ≠ none ∧
    (logout { base_url := "http://localhost", access_token := some (.str "tok"),
              org_id := some (.str "org"), user := none } none).1 =
      Except.error PyErr.connectionError := by
  exact ⟨by simp [logout], rfl⟩

/-- Claim C1 (amended): whenever the HTTP exchange completes — with any
status whatsoever, success or not, since `logout` never calls
`raise_for_status` — `logout` unconditionally clears the access token,
organization id and user; but a network-level failure raises before the
clearing assignments and leaves the session state unchanged. -/
theorem C1_logout_clears_on_completed_exchange (st : ClientState) (r : HttpResponse) :
    logout st (some r) =
      (.ok (), { st with access_token := none, org_id := none, user := none }) ∧
    logout st none = (.error .connectionError, st) :=
  ⟨rfl, rfl⟩

/-! ### Claim C6 -/

/-- Claim C6: when the collection key is absent from an object response
body, `list_products` returns the empty list, and `list_purchase_orders`
and `get_notifications` return the (raw) empty JSON array. -/
theorem C6_missing_collection_key_yields_empty (fs : List (String × Json)) :
    (fs.lookup "products" = none →
      list_products (some ⟨200, .obj fs⟩) = .ok []) ∧
    (fs.lookup "data" = none →
      list_purchase_orders (some ⟨200, .obj fs⟩) = .ok (.arr [])) ∧
    (fs.lookup "notifications" = none →
      get_notifications (some ⟨200, .obj fs⟩) = .ok (.arr [])) := by
  refine ⟨fun h => ?_, fun h => ?_, fun h => ?_⟩ <;>
    simp [list_products, list_purchase_orders, get_notifications,
          Json.pyGetD, isHttpErrorStatus_200, h, mapProducts]

/-- Witness for C6 at the empty object body. -/
theorem C6_missing_collection_key_yields_empty_witness :
    list_products (some ⟨200, .obj []⟩) = .ok [] ∧
    list_purchase_orders (some ⟨200, .obj []⟩) = .ok (.arr []) ∧
    get_notifications (some ⟨200, .obj []⟩) = .ok (.arr []) :=
  ⟨(C6_missing_collection_key_yields_empty []).1 rfl,
   (C6_missing_collection_key_yields_empty []).2.1 rfl,
   (C6_missing_collection_key_yields_empty []).2.2 rfl⟩

/-! ### Claim C7 -/

/-- Claim C7: `get_notifications` serializes `unread_only` as
`str(unread_only).lower()`, i.e. the literal lowercase strings "true"
and "false". -/
theorem C7_unread_only_serialized_lowercase (st : ClientState) (b : Bool) :
    (get_notifications_request st b).params =
      [("unread_only", .str (if b then "true" else "false"))] ∧
    (get_notifications_request st true).params = [("unread_only", .str "true")] ∧
    (get_notifications_request st false).params = [("unread_only", .str "false")] := by
  refine ⟨?_, rfl, rfl⟩
  cases b <;> rfl

/-! ### Claim C2 -/

/-- Claim C2: on a non-success status (4xx/5xx), `login` fails with the
HTTP error and leaves every session field at its prior value; on HTTP
200 with a body carrying the required keys, all three session fields are
set from the response body. -/
theorem C2_login_error_preserves_success_sets (st : ClientState) (s : Nat) (body : Json) :
    (400 ≤ s → s < 600 →
      login st (some ⟨s, body⟩) = (.error (.httpError s), st)) ∧
    (s = 200 →
      ∀ fs us tok org uid em,
        body = .obj fs →
        fs.lookup "access_token" = some tok →
        fs.lookup "user" = some (.obj us) →
        us.lookup "organization_id" = some org →
        us.lookup "id" = some uid →
        us.lookup "email" = some em →
        login st (some ⟨s, body⟩) =
          (.ok { id := uid, email := em,
                 first_name := (us.lookup "first_name").getD (.str ""),
                 last_name := (us.lookup "last_name").getD (.str ""),
                 organization_id := org,
                 roles := (us.lookup "roles").getD (.arr []) },
           { st with
               access_token := some tok,
               org_id := some org,
               user := some
                 { id := uid, email := em,
                   first_name := (us.lookup "first_name").getD (.str ""),
                   last_name := (us.lookup "last_name").getD (.str ""),
                   organization_id := org,
                   roles := (us.lookup "roles").getD (.arr []) } })) := by
  constructor
  · intro h1 h2
    simp [login, isHttpErrorStatus_of s h1 h2]
  · intro hs fs us tok org uid em hb h1 h2 h3 h4 h5
    subst hs hb
    simp [login, isHttpErrorStatus_200, Json.pyGet, Json.pyGetD, h1, h2, h3, h4, h5]

/-- Witness for C2: a 404 response leaves a populated session untouched,
and a 200 response with a complete body replaces all three fields. -/
theorem C2_login_error_preserves_success_sets_witness :
    login { base_url := "u", access_token := some (.str "old"),
            org_id := some (.str "oldOrg"), user := none }
        (some ⟨404, .obj []⟩) =
      (.error (.httpError 404),
       { base_url := "u", access_token := some (.str "old"),
         org_id := some (.str "oldOrg"), user := none }) ∧
    login { base_url := "u", access_token := some (.str "old"),
            org_id := some (.str "oldOrg"), user := none }
        (some ⟨200, .obj [("access_token", .str "T"),
                          ("user", .obj [("organization_id", .str "O"),
                                         ("id", .str "U"),
                                         ("email", .str "E")])]⟩) =
      (.ok { id := .str "U", email := .str "E", first_name := .str "",
             last_name := .str "", organization_id := .str "O", roles := .arr [] },
       { base_url := "u", access_token := some (.str "T"),
         org_id := some (.str "O"),
         user := some { id := .str "U", email := .str "E", first_name := .str "",
                        last_name := .str "", organization_id := .str "O",
                        roles := .arr [] } }) := by
  constructor
  · exact (C2_login_error_preserves_success_sets _ 404 _).1 (by omega) (by omega)
  · exact (C2_login_error_preserves_success_sets _ 200 _).2 rfl
      [("access_token", .str "T"),
       ("user", .obj [("organization_id", .str "O"), ("id", .str "U"), ("email", .str "E")])]
      [("organization_id", .str "O"), ("id", .str "U"), ("email", .str "E")]
      (.str "T") (.str "O") (.str "U") (.str "E") rfl rfl rfl rfl rfl rfl

/-! ### Claim C9 -/

/-- Claim C9 counterexample: with a 200 body whose `user` object has an
`organization_id` but lacks `"id"`, `login` raises the key-lookup error
only after *both* `self.access_token` and `self.org_id` were assigned,
so `org_id` does not retain its prior value as the claim asserts for
"other required keys". -/
theorem C9_counterexample :
    (login { base_url := "u", access_token := none,
             org_id := some (.str "oldOrg"), user := none }
        (some ⟨200, .obj [("access_token", .str "T"),
                          ("user", .obj [("organization_id", .str "newOrg"),
                                         ("email", .str "E")])]⟩)).1 =
      .error (.keyError "id") ∧
    (login { base_url := "u", access_token := none,
             org_id := some (.str "oldOrg"), user := none }
        (some ⟨200, .obj [("access_token", .str "T"),
                          ("user", .obj [("organization_id", .str "newOrg"),
                                         ("email", .str "E")])]⟩)).2.org_id ≠
      some (.str "oldOrg") := by
  constructor
  · rfl
  · show some (Json.str "newOrg") ≠ some (Json.str "oldOrg")
    simp

/-- Claim C9 (amended): on a 200 response whose body has `access_token`
but whose `user` object is absent or lacks `organization_id`, `login`
raises a key-lookup error with the access token already replaced and
`org_id`/`user` at their prior values; if `organization_id` is present
but `id` (or `email`) is missing, the error is raised with both the
access token and `org_id` replaced and only `user` at its prior
value. -/
theorem C9_login_partial_mutation (st : ClientState)
    (fs us : List (String × Json)) (tok : Json) :
    fs.lookup "access_token" = some tok →
    (fs.lookup "user" = none →
      login st (some ⟨200, .obj fs⟩) =
        (.error (.keyError "user"), { st with access_token := some tok })) ∧
    (fs.lookup "user" = some (.obj us) →
      (us.lookup "organization_id" = none →
        login st (some ⟨200, .obj fs⟩) =
          (.error (.keyError "organization_id"),
           { st with access_token := some tok })) ∧
      (∀ org, us.lookup "organization_id" = some org →
        (us.lookup "id" = none →
          login st (some ⟨200, .obj fs⟩) =
            (.error (.keyError "id"),
             { st with access_token := some tok, org_id := some org })) ∧
        (∀ uid, us.lookup "id" = some uid →
          us.lookup "email" = none →
          login st (some ⟨200, .obj fs⟩) =
            (.error (.keyError "email"),
             { st with access_token := some tok, org_id := some org })))) := by
  intro htok
  constructor
  · intro hu
    simp [login, isHttpErrorStatus_200, Json.pyGet, htok, hu]
  · intro hu
    constructor
    · intro horg
      simp [login, isHttpErrorStatus_200, Json.pyGet, htok, hu, horg]
    · intro org horg
      constructor
      · intro hid
        simp [login, isHttpErrorStatus_200, Json.pyGet, htok, hu, horg, hid]
      · intro uid hid hem
        simp [login, isHttpErrorStatus_200, Json.pyGet, Json.pyGetD, htok, hu, horg, hid, hem]

/-- Witness for C9 (amended) covering the user-absent and the
missing-`id` branches at concrete bodies. -/
theorem C9_login_partial_mutation_witness :
    login { base_url := "u", access_token := none, org_id := some (.str "oldOrg"),
            user := none }
        (some ⟨200, .obj [("access_token", .str "T")]⟩) =
      (.error (.keyError "user"),
       { base_url := "u", access_token := some (.str "T"),
         org_id := some (.str "oldOrg"), user := none }) ∧
    login { base_url := "u", access_token := none, org_id := some (.str "oldOrg"),
            user := none }
        (some ⟨200, .obj [("access_token", .str "T"),
                          ("user", .obj [("organization_id", .str "newOrg"),
                                         ("email", .str "E")])]⟩) =
      (.error (.keyError "id"),
       { base_url := "u", access_token := some (.str "T"),
         org_id := some (.str "newOrg"), user := none }) := by
  constructor
  · exact (C9_login_partial_mutation _ [("access_token", .str "T")] [] (.str "T") rfl).1 rfl
  · exact (((C9_login_partial_mutation _
      [("access_token", .str "T"),
       ("user", .obj [("organization_id", .str "newOrg"), ("email", .str "E")])]
      [("organization_id", .str "newOrg"), ("email", .str "E")]
      (.str "T") rfl).2 rfl).2 (.str "newOrg") rfl).1 rfl

/-! ### Claim C10 -/

theorem bufferOfJson_default_product_id (pid b : Json) (buf : Buffer)
    (h : bufferOfJson pid b = .ok buf) (hmiss : b.find? "product_id" = none) :
    buf.product_id = pid := by
  cases b <;> simp [bufferOfJson, Json.pyGetD] at h
  case obj bs =>
    simp only [Json.find?] at hmiss
    simp [hmiss] at h
    subst h
    rfl

/-- Claim C10: when the `"buffer"` sub-object lacks a `product_id` field
(or the sub-object is entirely absent, in which case the empty dict is
used), `get_buffer` and `calculate_buffer` return a `Buffer` whose
`product_id` is the `product_id` argument of the call. -/
theorem C10_buffer_product_id_defaults_to_argument (pid : Json)
    (fs : List (String × Json)) :
    (∀ buf, get_buffer pid (some ⟨200, .obj fs⟩) = .ok buf →
      (match fs.lookup "buffer" with
       | none => True
       | some b => b.find? "product_id" = none) →
      buf.product_id = pid) ∧
    (∀ buf, calculate_buffer pid (some ⟨200, .obj fs⟩) = .ok buf →
      (match fs.lookup "buffer" with
       | none => True
       | some b => b.find? "product_id" = none) →
      buf.product_id = pid) := by
  constructor <;>
  · intro buf h hcond
    simp [get_buffer, calculate_buffer, isHttpErrorStatus_200, Json.pyGetD] at h
    apply bufferOfJson_default_product_id pid _ buf h
    cases hlb : fs.lookup "buffer" with
    | none => simp [Json.find?]
    | some b =>
      simp only [hlb] at hcond
      simpa [hlb] using hcond

/-- Witness for C10: a body without a `"buffer"` key yields the default
record carrying the requested product id. -/
theorem C10_buffer_product_id_defaults_to_argument_witness :
    get_buffer (.str "P1") (some ⟨200, .obj []⟩) =
      .ok (Buffer.mk (.str "P1") (.str "unknown") (.num 0) (.num 0)
            (.num 0) (.num 0) (.num 0)) ∧
    Buffer.product_id (Buffer.mk (.str "P1") (.str "unknown") (.num 0) (.num 0)
        (.num 0) (.num 0) (.num 0)) = .str "P1" :=
  ⟨rfl, (C10_buffer_product_id_defaults_to_argument (.str "P1") []).1 _ rfl trivial⟩

/-! ### Claim C4 -/

theorem productOfJson_defaults (p : Json) (prod : Product)
    (h : productOfJson p = .ok prod) :
    (p.find? "category" = none → prod.category = .str "") ∧
    (p.find? "unit_of_measure" = none → prod.unit_of_measure = .str "") ∧
    (p.find? "status" = none → prod.status = .str "active") := by
  cases p <;> simp only [productOfJson, Json.pyGet, Json.pyGetD] at h <;>
    try exact absurd h (by simp)
  case obj fsp =>
    rcases hid : fsp.lookup "id" with _ | i <;> rw [hid] at h
    · exact absurd h (by simp)
    rcases hsku : fsp.lookup "sku" with _ | sk <;> rw [hsku] at h
    · exact absurd h (by simp)
    rcases hnm : fsp.lookup "name" with _ | nm <;> rw [hnm] at h
    · exact absurd h (by simp)
    simp only [Except.ok.injEq] at h
    subst h
    refine ⟨?_, ?_, ?_⟩ <;> (intro hx; simp only [Json.find?] at hx; simp [hx])

theorem mapProducts_get (l : List Json) (prods : List Product)
    (h : mapProducts l = .ok prods) :
    ∀ i (hi : i < l.length) (hj : i < prods.length),
      productOfJson (l.get ⟨i, hi⟩) = .ok (prods.get ⟨i, hj⟩) := by
  induction l generalizing prods with
  | nil => intro i hi hj; exact absurd hi (by simp)
  | cons p rest ih =>
    simp only [mapProducts] at h
    rcases hp : productOfJson p with e | pr <;> rw [hp] at h
    · exact absurd h (by simp)
    rcases hr : mapProducts rest with e | prs <;> rw [hr] at h
    · exact absurd h (by simp)
    simp only [Except.ok.injEq] at h
    subst h
    intro i hi hj
    cases i with
    | zero => simpa using hp
    | succ n =>
      simpa using ih prs hr n (by simpa using hi) (by simpa using hj)

theorem bufferOfJson_defaults (pid b : Json) (buf : Buffer)
    (h : bufferOfJson pid b = .ok buf) :
    (b.find? "zone" = none → buf.zone = .str "unknown") ∧
    (b.find? "net_flow_position" = none → buf.net_flow_position = .num 0) ∧
    (b.find? "buffer_penetration" = none → buf.buffer_penetration = .num 0) ∧
    (b.find? "red_zone" = none → buf.red_zone = .num 0) ∧
    (b.find? "yellow_zone" = none → buf.yellow_zone = .num 0) ∧
    (b.find? "green_zone" = none → buf.green_zone = .num 0) := by
  cases b with
  | obj bs =>
    simp only [bufferOfJson, Json.pyGetD, Except.ok.injEq] at h
    subst h
    refine ⟨?_, ?_, ?_, ?_, ?_, ?_⟩ <;>
      (intro hx; simp only [Json.find?] at hx; simp [hx])
  | null => simp [bufferOfJson, Json.pyGetD] at h
  | bool x => simp [bufferOfJson, Json.pyGetD] at h
  | num x => simp [bufferOfJson, Json.pyGetD] at h
  | str x => simp [bufferOfJson, Json.pyGetD] at h
  | arr x => simp [bufferOfJson, Json.pyGetD] at h

/-- Claim C4: for every JSON response in which an optional field is
absent, the mapped record uses the documented default — empty string for
product `category`/`unit_of_measure`, "active" for product `status`,
`0` for the buffer numeric fields and "unknown" for the buffer `zone` —
in the product construction shared by `list_products` (elementwise),
`get_product` and `create_product`, and in the buffer construction of
`get_buffer` and `calculate_buffer`. -/
theorem C4_absent_optional_fields_use_defaults :
    (∀ p prod, productOfJson p = .ok prod →
      (p.find? "category" = none → prod.category = .str "") ∧
      (p.find? "unit_of_measure" = none → prod.unit_of_measure = .str "") ∧
      (p.find? "status" = none → prod.status = .str "active")) ∧
    (∀ body prod, get_product (some ⟨200, body⟩) = .ok prod →
      (body.find? "category" = none → prod.category = .str "") ∧
      (body.find? "unit_of_measure" = none → prod.unit_of_measure = .str "") ∧
      (body.find? "status" = none → prod.status = .str "active")) ∧
    (∀ body prod, create_product (some ⟨200, body⟩) = .ok prod →
      (body.find? "category" = none → prod.category = .str "") ∧
      (body.find? "unit_of_measure" = none → prod.unit_of_measure = .str "") ∧
      (body.find? "status" = none → prod.status = .str "active")) ∧
    (∀ fs l prods, (Json.obj fs).find? "products" = some (.arr l) →
      list_products (some ⟨200, .obj fs⟩) = .ok prods →
      ∀ i (hi : i < l.length) (hj : i < prods.length),
        productOfJson (l.get ⟨i, hi⟩) = .ok (prods.get ⟨i, hj⟩)) ∧
    (∀ pid fs buf, get_buffer pid (some ⟨200, .obj fs⟩) = .ok buf →
      ∀ b, (fs.lookup "buffer").getD (.obj []) = b →
        (b.find? "zone" = none → buf.zone = .str "unknown") ∧
        (b.find? "net_flow_position" = none → buf.net_flow_position = .num 0) ∧
        (b.find? "buffer_penetration" = none → buf.buffer_penetration = .num 0) ∧
        (b.find? "red_zone" = none → buf.red_zone = .num 0) ∧
        (b.find? "yellow_zone" = none → buf.yellow_zone = .num 0) ∧
        (b.find? "green_zone" = none → buf.green_zone = .num 0)) ∧
    (∀ pid fs buf, calculate_buffer pid (some ⟨200, .obj fs⟩) = .ok buf →
      ∀ b, (fs.lookup "buffer").getD (.obj []) = b →
        (b.find? "zone" = none → buf.zone = .str "unknown") ∧
        (b.find? "net_flow_position" = none → buf.net_flow_position = .num 0) ∧
        (b.find? "buffer_penetration" = none → buf.buffer_penetration = .num 0) ∧
        (b.find? "red_zone" = none → buf.red_zone = .num 0) ∧
        (b.find? "yellow_zone" = none → buf.yellow_zone = .num 0) ∧
        (b.find? "green_zone" = none → buf.green_zone = .num 0)) := by
  refine ⟨productOfJson_defaults, ?_, ?_, ?_, ?_, ?_⟩
  · intro body prod h
    simp only [get_product, isHttpErrorStatus_200, if_false, Bool.false_eq_true] at h
    exact productOfJson_defaults body prod h
  · intro body prod h
    simp only [create_product, isHttpErrorStatus_200, if_false, Bool.false_eq_true] at h
    exact productOfJson_defaults body prod h
  · intro fs l prods hfind h
    simp only [Json.find?] at hfind
    simp only [list_products, isHttpErrorStatus_200, Json.pyGetD, hfind,
               if_false, Bool.false_eq_true, Option.getD_some] at h
    exact mapProducts_get l prods h
  · intro pid fs buf h b hb
    simp only [get_buffer, isHttpErrorStatus_200, Json.pyGetD,
               if_false, Bool.false_eq_true] at h
    rw [hb] at h
    exact bufferOfJson_defaults pid b buf h
  · intro pid fs buf h b hb
    simp only [calculate_buffer, isHttpErrorStatus_200, Json.pyGetD,
               if_false, Bool.false_eq_true] at h
    rw [hb] at h
    exact bufferOfJson_defaults pid b buf h

/-- Witness for C4: a product body with only the required keys maps to
the default category, unit and status; an empty buffer object yields
zone "unknown" and all-zero numerics; a one-element products array is
mapped elementwise. -/
theorem C4_absent_optional_fields_use_defaults_witness :
    Product.category (Product.mk (.str "1") (.str "S") (.str "N")
        (.str "") (.str "") (.str "active")) = .str "" ∧
    Product.status (Product.mk (.str "1") (.str "S") (.str "N")
        (.str "") (.str "") (.str "active")) = .str "active" ∧
    Buffer.zone (Buffer.mk (.str "P") (.str "unknown") (.num 0) (.num 0)
        (.num 0) (.num 0) (.num 0)) = .str "unknown" ∧
    Buffer.net_flow_position (Buffer.mk (.str "P") (.str "unknown") (.num 0) (.num 0)
        (.num 0) (.num 0) (.num 0)) = .num 0 ∧
    productOfJson (.obj [("id", .str "1"), ("sku", .str "S"), ("name", .str "N")]) =
      .ok (Product.mk (.str "1") (.str "S") (.str "N")
        (.str "") (.str "") (.str "active")) := by
  have h1 := (C4_absent_optional_fields_use_defaults.1
    (.obj [("id", .str "1"), ("sku", .str "S"), ("name", .str "N")])
    (Product.mk (.str "1") (.str "S") (.str "N") (.str "") (.str "") (.str "active"))
    rfl).1 rfl
  have h2 := ((C4_absent_optional_fields_use_defaults.2.1
    (.obj [("id", .str "1"), ("sku", .str "S"), ("name", .str "N")])
    (Product.mk (.str "1") (.str "S") (.str "N") (.str "") (.str "") (.str "active"))
    rfl).2).2 rfl
  have h3 := (C4_absent_optional_fields_use_defaults.2.2.2.2.1
    (.str "P") [] (Buffer.mk (.str "P") (.str "unknown") (.num 0) (.num 0)
      (.num 0) (.num 0) (.num 0)) rfl (.obj []) rfl).1 rfl
  have h4 := ((C4_absent_optional_fields_use_defaults.2.2.2.2.2
    (.str "P") [] (Buffer.mk (.str "P") (.str "unknown") (.num 0) (.num 0)
      (.num 0) (.num 0) (.num 0)) rfl (.obj []) rfl).2).1 rfl
  have h5 := C4_absent_optional_fields_use_defaults.2.2.2.1
    [("products", .arr [.obj [("id", .str "1"), ("sku", .str "S"), ("name", .str "N")]])]
    [.obj [("id", .str "1"), ("sku", .str "S"), ("name", .str "N")]]
    [Product.mk (.str "1") (.str "S") (.str "N") (.str "") (.str "") (.str "active")]
    rfl rfl 0 (by simp) (by simp)
  exact ⟨h1, h2, h3, h4, by simpa using h5⟩

/-! ### Claim C3 -/

/-- Claim C3 counterexample, refuting "any call made after a successful
login() includes both" twice over: (1) after a successful login storing
a non-empty token, `refresh_token`'s request carries no custom headers
at all (the method never passes `self._headers`), so it omits
`Authorization`; (2) a login whose 200 body carries an *empty*
`access_token` string succeeds and stores the token, yet a subsequent
`list_products` request omits `Authorization`, because `_headers` tests
Python truthiness (`if self.access_token:`) and the empty string is
falsy even though a token is held. -/
theorem C3_counterexample :
    ((login (GIIAClient.init "http://localhost")
        (some ⟨200, .obj [("access_token", .str "T"),
                          ("user", .obj [("organization_id", .str "O"),
                                         ("id", .str "U"), ("email", .str "E")])]⟩)).1 =
      .ok (User.mk (.str "U") (.str "E") (.str "") (.str "") (.str "O") (.arr [])) ∧
     ((refresh_token_request
        (login (GIIAClient.init "http://localhost")
          (some ⟨200, .obj [("access_token", .str "T"),
                            ("user", .obj [("organization_id", .str "O"),
                                           ("id", .str "U"), ("email", .str "E")])]⟩)).2).headers.lookup
        "Authorization" = none)) ∧
    ((login (GIIAClient.init "http://localhost")
        (some ⟨200, .obj [("access_token", .str ""),
                          ("user", .obj [("organization_id", .str "O"),
                                         ("id", .str "U"), ("email", .str "E")])]⟩)).1 =
      .ok (User.mk (.str "U") (.str "E") (.str "") (.str "") (.str "O") (.arr [])) ∧
     ((list_products_request
        (login (GIIAClient.init "http://localhost")
          (some ⟨200, .obj [("access_token", .str ""),
                            ("user", .obj [("organization_id", .str "O"),
                                           ("id", .str "U"), ("email", .str "E")])]⟩)).2
        1 20 none).headers.lookup "Authorization" = none)) :=
  ⟨⟨rfl, rfl⟩, ⟨rfl, rfl⟩⟩

theorem headersOf_lookup (st : ClientState) :
    ((headersOf st).lookup "Authorization").isSome = truthyOpt st.access_token ∧
    ((headersOf st).lookup "X-Organization-ID").isSome = truthyOpt st.org_id := by
  obtain ⟨u, tok, org, usr⟩ := st
  cases tok <;> cases org <;>
    simp [headersOf, truthyOpt, List.lookup] <;>
    split_ifs <;>
    simp_all [List.lookup]

/-- Claim C3 (amended): `_headers` attaches `Authorization` exactly when
the stored token is truthy (held and non-empty) and `X-Organization-ID`
exactly when the stored organization id is truthy; every operation
except `login` and `refresh_token` passes `_headers`, while those two
pass no custom headers at all; a freshly initialized client omits both
headers, and after a successful `login` whose stored token and
organization id are truthy, `_headers` carries both. -/
theorem C3_headers_iff_truthy_fields (st : ClientState) :
    ((headersOf st).lookup "Authorization").isSome = truthyOpt st.access_token ∧
    ((headersOf st).lookup "X-Organization-ID").isSome = truthyOpt st.org_id ∧
    ((logout_request st).headers = headersOf st ∧
     (∀ page page_size status, (list_products_request st page page_size status).headers = headersOf st) ∧
     (∀ pid, (get_product_request st pid).headers = headersOf st) ∧
     (∀ sku nm cat um, (create_product_request st sku nm cat um).headers = headersOf st) ∧
     (∀ pid, (get_buffer_request st pid).headers = headersOf st) ∧
     (∀ pid, (calculate_buffer_request st pid).headers = headersOf st) ∧
     (∀ po sup items n now, (create_purchase_order_request st po sup items n now).headers = headersOf st) ∧
     (∀ status, (list_purchase_orders_request st status).headers = headersOf st) ∧
     (get_kpi_snapshot_request st).headers = headersOf st ∧
     (∀ b, (get_notifications_request st b).headers = headersOf st)) ∧
    (∀ em pw, (login_request st em pw).headers = []) ∧
    (refresh_token_request st).headers = [] ∧
    (∀ u, ((headersOf (GIIAClient.init u)).lookup "Authorization" = none ∧
           (headersOf (GIIAClient.init u)).lookup "X-Organization-ID" = none)) ∧
    (∀ o usr st2, login st o = (.ok usr, st2) →
      truthyOpt st2.access_token = true →
      truthyOpt st2.org_id = true →
      ((headersOf st2).lookup "Authorization").isSome = true ∧
      ((headersOf st2).lookup "X-Organization-ID").isSome = true) := by
  refine ⟨(headersOf_lookup st).1, (headersOf_lookup st).2,
    ⟨rfl, fun _ _ _ => rfl, fun _ => rfl, fun _ _ _ _ => rfl, fun _ => rfl,
     fun _ => rfl, fun _ _ _ _ _ => rfl, fun _ => rfl, rfl, fun _ => rfl⟩,
    fun _ _ => rfl, rfl, fun u => ⟨rfl, rfl⟩, ?_⟩
  intro o usr st2 _ h1 h2
  exact ⟨((headersOf_lookup st2).1).trans h1, ((headersOf_lookup st2).2).trans h2⟩

/-- Witness for C3 (amended): after the concrete successful login from a
fresh client, both headers are present. -/
theorem C3_headers_iff_truthy_fields_witness :
    ((headersOf { base_url := "http://localhost", access_token := some (.str "T"),
                  org_id := some (.str "O"),
                  user := some (User.mk (.str "U") (.str "E") (.str "") (.str "")
                    (.str "O") (.arr [])) }).lookup "Authorization").isSome = true ∧
    ((headersOf { base_url := "http://localhost", access_token := some (.str "T"),
                  org_id := some (.str "O"),
                  user := some (User.mk (.str "U") (.str "E") (.str "") (.str "")
                    (.str "O") (.arr [])) }).lookup "X-Organization-ID").isSome = true :=
  (C3_headers_iff_truthy_fields (GIIAClient.init "http://localhost")).2.2.2.2.2.2
    (some ⟨200, .obj [("access_token", .str "T"),
                      ("user", .obj [("organization_id", .str "O"),
                                     ("id", .str "U"), ("email", .str "E")])]⟩)
    (User.mk (.str "U") (.str "E") (.str "") (.str "") (.str "O") (.arr []))
    { base_url := "http://localhost", access_token := some (.str "T"),
      org_id := some (.str "O"),
      user := some (User.mk (.str "U") (.str "E") (.str "") (.str "")
        (.str "O") (.arr [])) }
    rfl rfl rfl

/-! ### Claim C5 -/

theorem isLeap_iff (y : Nat) :
    isLeap y = true ↔ (y % 4 = 0 ∧ y % 100 ≠ 0) ∨ y % 400 = 0 := by
  simp [isLeap, Bool.or_eq_true, Bool.and_eq_true, beq_iff_eq, bne_iff_ne]

theorem monthLen_pos (y m : Nat) (h1 : 1 ≤ m) (h2 : m ≤ 12) :
    1 ≤ monthLen y m := by
  interval_cases m <;> simp only [monthLen] <;> first | omega | (split <;> omega)

theorem daysBeforeMonth_succ (y m : Nat) (h1 : 1 ≤ m) (h2 : m ≤ 11) :
    daysBeforeMonth y (m + 1) = daysBeforeMonth y m + monthLen y m := by
  cases hl : isLeap y <;> interval_cases m <;>
    simp [daysBeforeMonth, DAYS_BEFORE_MONTH, monthLen, hl]

theorem div4_succ (y : Nat) (hy : 1 ≤ y) :
    y / 4 = (y - 1) / 4 + (if y % 4 = 0 then 1 else 0) := by
  split <;> omega

theorem div100_succ (y : Nat) (hy : 1 ≤ y) :
    y / 100 = (y - 1) / 100 + (if y % 100 = 0 then 1 else 0) := by
  split <;> omega

theorem div400_succ (y : Nat) (hy : 1 ≤ y) :
    y / 400 = (y - 1) / 400 + (if y % 400 = 0 then 1 else 0) := by
  split <;> omega

theorem daysBeforeYear_succ (y : Nat) (hy : 1 ≤ y) :
    daysBeforeYear (y + 1) = daysBeforeYear y + 365 + (if isLeap y then 1 else 0) := by
  simp only [daysBeforeYear, Nat.add_sub_cancel]
  rw [div4_succ y hy, div100_succ y hy, div400_succ y hy]
  cases hb : isLeap y
  · have hnl : ¬((y % 4 = 0 ∧ y % 100 ≠ 0) ∨ y % 400 = 0) := by
      intro hc
      have hc2 := (isLeap_iff y).mpr hc
      rw [hb] at hc2
      exact Bool.noConfusion hc2
    simp only [hb, Bool.false_eq_true, if_false]
    by_cases c4 : y % 4 = 0 <;> by_cases c100 : y % 100 = 0 <;>
      by_cases c400 : y % 400 = 0 <;> simp [c4, c100, c400] <;> omega
  · have hl := (isLeap_iff y).mp hb
    simp only [hb, if_true]
    by_cases c4 : y % 4 = 0 <;> by_cases c100 : y % 100 = 0 <;>
      by_cases c400 : y % 400 = 0 <;> simp [c4, c100, c400] <;> omega

/-- Stepping one day forward increments `toordinal` and preserves
calendar validity. -/
theorem toordinal_nextDay (d : PyDate) (h : d.Valid) :
    toordinal (nextDay d) = toordinal d + 1 ∧ (nextDay d).Valid := by
  obtain ⟨y, m, dd⟩ := d
  obtain ⟨hy, hm1, hm12, hd1, hdle⟩ := h
  try dsimp only at hy hm1 hm12 hd1 hdle
  simp only [nextDay]
  by_cases h1 : dd < monthLen y m
  · simp only [if_pos h1]
    constructor
    · show toordinal ⟨y, m, dd + 1⟩ = toordinal ⟨y, m, dd⟩ + 1
      simp only [toordinal]
      try dsimp only
      omega
    · exact ⟨hy, hm1, hm12, by show 1 ≤ dd + 1; omega,
        by show dd + 1 ≤ monthLen y m; omega⟩
  · by_cases h2 : m < 12
    · simp only [if_neg h1, if_pos h2]
      have hdd : dd = monthLen y m := by omega
      constructor
      · show toordinal ⟨y, m + 1, 1⟩ = toordinal ⟨y, m, dd⟩ + 1
        simp only [toordinal]
        try dsimp only
        have key := daysBeforeMonth_succ y m hm1 (by omega)
        omega
      · exact ⟨hy, by show 1 ≤ m + 1; omega, by show m + 1 ≤ 12; omega,
          by show 1 ≤ (1 : Nat); omega,
          by show 1 ≤ monthLen y (m + 1); exact monthLen_pos y (m + 1) (by omega) (by omega)⟩
    · simp only [if_neg h1, if_neg h2]
      have hm : m = 12 := by omega
      subst hm
      have h31 : monthLen y 12 = 31 := rfl
      have hdd : dd = 31 := by omega
      subst hdd
      constructor
      · show toordinal ⟨y + 1, 1, 1⟩ = toordinal ⟨y, 12, 31⟩ + 1
        simp only [toordinal]
        have key := daysBeforeYear_succ y hy
        have hbm1 : daysBeforeMonth (y + 1) 1 = 0 := rfl
        have hbm12 : daysBeforeMonth y 12 = 334 + (if isLeap y then 1 else 0) := by
          cases hl : isLeap y <;> simp [daysBeforeMonth, DAYS_BEFORE_MONTH, hl]
        cases hb : isLeap y <;> simp only [hb] at key hbm12 <;>
          simp at key hbm12 <;> omega
      · exact ⟨by show 1 ≤ y + 1; omega, by show 1 ≤ (1 : Nat); omega,
          by show (1 : Nat) ≤ 12; omega, by show 1 ≤ (1 : Nat); omega,
          by show 1 ≤ monthLen (y + 1) 1; exact monthLen_pos (y + 1) 1 (by omega) (by omega)⟩

/-- Adding `n` days advances `toordinal` by exactly `n` and preserves
validity. -/
theorem toordinal_addDays (n : Nat) (d : PyDate) (h : d.Valid) :
    toordinal (addDays n d) = toordinal d + n ∧ (addDays n d).Valid := by
  induction n generalizing d with
  | zero => exact ⟨by simp [addDays], h⟩
  | succ k ih =>
    have hn := toordinal_nextDay d h
    have hk := ih (nextDay d) hn.2
    simp only [addDays]
    exact ⟨by rw [hk.1, hn.1]; omega, hk.2⟩

/-- Claim C5: `create_purchase_order` submits `order_date` formatted
from "today" (the `datetime.now()` observation) and
`expected_arrival_date` formatted from the date exactly `expected_days`
calendar days later — the resulting date is valid and its ordinal
exceeds today's by exactly `expected_days` — both as `%Y-%m-%d`
strings. -/
theorem C5_purchase_order_dates (st : ClientState) (po sup : String)
    (items : List Json) (n : Nat) (now : PyDate) (h : now.Valid) :
    ∃ b, (create_purchase_order_request st po sup items n now).body = some (.obj b) ∧
      b.lookup "order_date" = some (.str (strftimeYMD now)) ∧
      b.lookup "expected_arrival_date" = some (.str (strftimeYMD (addDays n now))) ∧
      (addDays n now).Valid ∧
      toordinal (addDays n now) = toordinal now + n :=
  ⟨_, rfl, rfl, rfl, (toordinal_addDays n now h).2, (toordinal_addDays n now h).1⟩

/-- Witness for C5: from 2026-10-12 with the default `expected_days=14`
the arrival date is 2026-10-26, 14 ordinal days later. -/
theorem C5_purchase_order_dates_witness :
    (PyDate.mk 2026 10 12).Valid ∧
    (∃ b, (create_purchase_order_request (GIIAClient.init "u") "PO-1" "SUP-1" []
        14 ⟨2026, 10, 12⟩).body = some (.obj b) ∧
      b.lookup "order_date" = some (.str (strftimeYMD ⟨2026, 10, 12⟩)) ∧
      b.lookup "expected_arrival_date" =
        some (.str (strftimeYMD (addDays 14 ⟨2026, 10, 12⟩))) ∧
      (addDays 14 (PyDate.mk 2026 10 12)).Valid ∧
      toordinal (addDays 14 ⟨2026, 10, 12⟩) = toordinal ⟨2026, 10, 12⟩ + 14) :=
  ⟨by decide,
   C5_purchase_order_dates (GIIAClient.init "u") "PO-1" "SUP-1" [] 14 ⟨2026, 10, 12⟩
     (by decide)⟩

/-! ### Claim C8 -/

theorem bufferStepClean_irrel (pid pid2 : Json) (o : Outcome) :
    bufferStepClean (get_buffer pid o) = bufferStepClean (get_buffer pid2 o) := by
  cases o with
  | none => rfl
  | some r =>
    simp only [get_buffer]
    split
    · rfl
    · cases hb : r.body.pyGetD "buffer" (.obj []) with
      | error e => rfl
      | ok b =>
        cases b <;>
          simp [bufferOfJson, Json.pyGetD, bufferStepClean, step4Prints]

theorem step6_total (o6 : Outcome)
    (h : notifStepClean (get_notifications o6) = true) :
    step6Run o6 = ⟨[6], true, none⟩ := by
  unfold step6Run
  cases hg : get_notifications o6 with
  | error e =>
    rw [hg] at h
    simp only [notifStepClean] at h
    simp [h]
  | ok v =>
    rw [hg] at h
    simp only [notifStepClean] at h
    cases hp : step6Prints v with
    | ok u => simp [hp]
    | error e =>
      rw [hp] at h
      simp at h

theorem step5_total (o5 o6 : Outcome)
    (h5 : kpiStepClean (get_kpi_snapshot o5) = true)
    (h6 : notifStepClean (get_notifications o6) = true) :
    step5Run o5 o6 = ⟨[5, 6], true, none⟩ := by
  unfold step5Run
  rw [step6_total o6 h6]
  cases hg : get_kpi_snapshot o5 with
  | error e =>
    rw [hg] at h5
    simp only [kpiStepClean] at h5
    simp [h5]
  | ok kpis =>
    rw [hg] at h5
    simp only [kpiStepClean] at h5
    cases hp : step5Prints kpis with
    | ok u => simp [hp]
    | error e =>
      rw [hp] at h5
      simp at h5

theorem step4_total (products : List Product) (o4 o5 o6 : Outcome)
    (h4 : bufferStepClean (get_buffer (.str "") o4) = true)
    (h5 : kpiStepClean (get_kpi_snapshot o5) = true)
    (h6 : notifStepClean (get_notifications o6) = true) :
    step4Run products o4 o5 o6 = ⟨[4, 5, 6], true, none⟩ := by
  unfold step4Run
  rw [step5_total o5 o6 h5 h6]
  cases products with
  | nil => rfl
  | cons p rest =>
    dsimp only
    have h4p : bufferStepClean (get_buffer p.id o4) = true :=
      (bufferStepClean_irrel p.id (.str "") o4).trans h4
    cases hg : get_buffer p.id o4 with
    | error e =>
      rw [hg] at h4p
      simp only [bufferStepClean] at h4p
      simp [hg, h4p]
    | ok buf =>
      rw [hg] at h4p
      simp only [bufferStepClean] at h4p
      cases hp : step4Prints buf with
      | ok u => simp [hg, hp]
      | error e =>
        rw [hp] at h4p
        simp at h4p

theorem step3_total (products : List Product) (o3 o4 o5 o6 : Outcome)
    (h3 : transportOnly (create_product o3) = true)
    (h4 : bufferStepClean (get_buffer (.str "") o4) = true)
    (h5 : kpiStepClean (get_kpi_snapshot o5) = true)
    (h6 : notifStepClean (get_notifications o6) = true) :
    step3Run products o3 o4 o5 o6 = ⟨[3, 4, 5, 6], true, none⟩ := by
  unfold step3Run
  rw [step4_total products o4 o5 o6 h4 h5 h6]
  cases hg : create_product o3 with
  | ok v => rfl
  | error e =>
    rw [hg] at h3
    simp only [transportOnly] at h3
    simp [h3]

theorem step2_total (o2 o3 o4 o5 o6 : Outcome)
    (h2 : transportOnly (list_products o2) = true)
    (h3 : transportOnly (create_product o3) = true)
    (h4 : bufferStepClean (get_buffer (.str "") o4) = true)
    (h5 : kpiStepClean (get_kpi_snapshot o5) = true)
    (h6 : notifStepClean (get_notifications o6) = true) :
    step2Run o2 o3 o4 o5 o6 = ⟨[2, 3, 4, 5, 6], true, none⟩ := by
  unfold step2Run
  cases hg : list_products o2 with
  | ok ps =>
    dsimp only
    rw [step3_total ps o3 o4 o5 o6 h3 h4 h5 h6]
  | error e =>
    rw [hg] at h2
    simp only [transportOnly] at h2
    dsimp only
    simp only [h2, if_true]
    rw [step3_total [] o3 o4 o5 o6 h3 h4 h5 h6]

/-- Claim C8: any login failure makes the driver stop after step 1 (no
later step runs); when login succeeds and every later step's outcome is
either a transport/HTTP failure — the single error kind the driver's
`except requests.exceptions.RequestException` arms handle — or a success
whose success-path prints raise nothing (the per-step `...Clean`
predicates, which also rule out the uncaught format/`len`/lookup errors
those prints raise on ill-typed response data), all six steps run and
the driver reaches the closing banner with no uncaught exception. -/
theorem C8_driver_aborts_on_login_continues_elsewhere (o1 o2 o3 o4 o5 o6 : Outcome) :
    (∀ e st2, login (GIIAClient.init "http://localhost") o1 = (.error e, st2) →
      (mainRun o1 o2 o3 o4 o5 o6).steps = [1] ∧
      (mainRun o1 o2 o3 o4 o5 o6).completed = false) ∧
    (∀ u st2, login (GIIAClient.init "http://localhost") o1 = (.ok u, st2) →
      transportOnly (list_products o2) = true →
      transportOnly (create_product o3) = true →
      bufferStepClean (get_buffer (.str "") o4) = true →
      kpiStepClean (get_kpi_snapshot o5) = true →
      notifStepClean (get_notifications o6) = true →
      mainRun o1 o2 o3 o4 o5 o6 = ⟨[1, 2, 3, 4, 5, 6], true, none⟩) := by
  constructor
  · intro e st2 h
    simp [mainRun, h]
  · intro u st2 h h2 h3 h4 h5 h6
    simp only [mainRun, h]
    rw [step2_total o2 o3 o4 o5 o6 h2 h3 h4 h5 h6]

/-- Witness for C8: a network failure at login stops the driver at step
1; with a successful login, a 4xx/5xx or network failure at steps 2-5
and a well-typed success at step 6, all six steps run to completion. -/
theorem C8_driver_aborts_on_login_continues_elsewhere_witness :
    ((mainRun none (some ⟨200, .obj []⟩) (some ⟨200, .obj []⟩) (some ⟨200, .obj []⟩)
        (some ⟨200, .obj []⟩) (some ⟨200, .obj []⟩)).steps = [1] ∧
     (mainRun none (some ⟨200, .obj []⟩) (some ⟨200, .obj []⟩) (some ⟨200, .obj []⟩)
        (some ⟨200, .obj []⟩) (some ⟨200, .obj []⟩)).completed = false) ∧
    mainRun (some ⟨200, .obj [("access_token", .str "T"),
                              ("user", .obj [("organization_id", .str "O"),
                                             ("id", .str "U"), ("email", .str "E")])]⟩)
        (some ⟨500, .obj []⟩) (some ⟨503, .obj []⟩) (some ⟨404, .obj []⟩)
        none (some ⟨200, .obj []⟩) =
      ⟨[1, 2, 3, 4, 5, 6], true, none⟩ := by
  constructor
  · exact (C8_driver_aborts_on_login_continues_elsewhere none (some ⟨200, .obj []⟩)
      (some ⟨200, .obj []⟩) (some ⟨200, .obj []⟩) (some ⟨200, .obj []⟩)
      (some ⟨200, .obj []⟩)).1 .connectionError (GIIAClient.init "http://localhost") rfl
  · exact (C8_driver_aborts_on_login_continues_elsewhere
      (some ⟨200, .obj [("access_token", .str "T"),
                        ("user", .obj [("organization_id", .str "O"),
                                       ("id", .str "U"), ("email", .str "E")])]⟩)
      (some ⟨500, .obj []⟩) (some ⟨503, .obj []⟩) (some ⟨404, .obj []⟩)
      none (some ⟨200, .obj []⟩)).2
      (User.mk (.str "U") (.str "E") (.str "") (.str "") (.str "O") (.arr []))
      { base_url := "http://localhost", access_token := some (.str "T"),
        org_id := some (.str "O"),
        user := some (User.mk (.str "U") (.str "E") (.str "") (.str "")
          (.str "O") (.arr [])) }
      rfl rfl rfl rfl rfl rfl

end GIIA
